import Mathlib

/-!
Shallow embedding of `src/gspread_wrapper/gspread_utils.py` and proofs about
its retry-classifying call wrapper (`gspread_function`) and the surrounding
`GSPREAD` wrapper class.

A zero-argument remote operation is modelled as a stream `op : Nat → Outcome α`
giving the outcome of its successive invocations; an execution of
`gspread_function` consumes one stream position per invocation.
-/

namespace GspreadWrapper

/-- Head matching: does the second character list occur as an initial segment
of the first?  Building block for the Python substring operator. -/
def matchesAt : List Char → List Char → Bool
  | _, [] => true
  | [], _ :: _ => false
  | a :: as, b :: bs => a == b && matchesAt as bs

/-- Occurrence of the second character list anywhere inside the first. -/
def occursIn : List Char → List Char → Bool
  | [], needle => matchesAt [] needle
  | c :: t, needle => matchesAt (c :: t) needle || occursIn t needle

/-- Python `needle in hay` on strings. -/
def strContains (hay needle : String) : Bool :=
  occursIn hay.data needle.data

/-- Python `str.lower()` (ASCII, as used by the repository's substrings). -/
def lowerStr (s : String) : String :=
  String.mk (s.data.map Char.toLower)

/-- The exceptions distinguished by `gspread_function`
(gspread_utils.py lines 31-49).  An API error carries the text of `str(e)`
and the text of `traceback.format_exc()`; any exception that is neither a
`requests.exceptions.JSONDecodeError` nor a `gspread.client.APIError` is
`other`. -/
inductive Exc where
  | jsonDecodeError : Exc
  | apiError (msg tb : String) : Exc
  | other (tag : String) : Exc
deriving DecidableEq

/-- Outcome of one invocation of a zero-argument operation. -/
inductive Outcome (α : Type) where
  | success (v : α) : Outcome α
  | raise (e : Exc) : Outcome α
deriving DecidableEq

/-- Error classification of the retry wrapper (spec section 3,
`ErrorClassification`). -/
inductive Classification where
  | transientParse : Classification
  | transient502 : Classification
  | transientRate : Classification
  | transientUnavail : Classification
  | fatal : Classification
  | unclassified : Classification
deriving DecidableEq

/-- The classification performed by the `except` clauses of `gspread_function`
(gspread_utils.py lines 34-47): a JSON decode error is transient; an API
error is matched against the substring patterns of lines 39-43, in order,
falling through to fatal; any other exception type is not classified at all. -/
def classify : Exc → Classification
  | Exc.jsonDecodeError => Classification.transientParse
  | Exc.apiError msg tb =>
    if strContains msg ("502") || strContains tb ("Server Error") then
      Classification.transient502
    else if strContains tb ("Quota exceeded")
        || strContains tb ("Read requests per minute per user") then
      Classification.transientRate
    else if strContains (lowerStr tb) ("the service is currently unavailable") then
      Classification.transientUnavail
    else Classification.fatal
  | Exc.other _ => Classification.unclassified

/-- A classification is transient exactly when the loop sleeps and continues. -/
def isTransient : Classification → Bool
  | Classification.fatal => false
  | Classification.unclassified => false
  | _ => true

/-- The stack-trace text printed on the fatal branch (line 46). -/
def tbOf : Exc → String
  | Exc.apiError _ tb => tb
  | _ => ""

/-- The diagnostic lines printed by `gspread_function`. -/
inductive LogEntry where
  | jsonDecode : LogEntry
  | retry502 (attempt : Nat) : LogEntry
  | retryRate (attempt : Nat) : LogEntry
  | retryUnavail (attempt : Nat) : LogEntry
  | fatalDetail (tb : String) : LogEntry
  | finalNotice : LogEntry
deriving DecidableEq

/-- The log line emitted for a transient classification; the JSON decode line
carries no attempt number (line 35), the API branches print
`counter + 1` (lines 40, 42, 44).  The fatal and unclassified cases never
reach this function inside the loop. -/
def retryLog (c : Classification) (attempt : Nat) : LogEntry :=
  match c with
  | Classification.transientParse => LogEntry.jsonDecode
  | Classification.transient502 => LogEntry.retry502 attempt
  | Classification.transientRate => LogEntry.retryRate attempt
  | Classification.transientUnavail => LogEntry.retryUnavail attempt
  | Classification.fatal => LogEntry.finalNotice
  | Classification.unclassified => LogEntry.finalNotice

/-- Observable record of one run of `gspread_function`: the returned value or
propagated exception, the list of sleep durations (seconds), the diagnostic
log, and the stream position after the run (i.e. how many invocations of the
underlying stream have been consumed when the run starts at position 0). -/
structure RunResult (α : Type) where
  result : Except Exc α
  sleepLog : List Nat
  log : List LogEntry
  endPos : Nat

/-- The `while counter < counter_threshold` loop of `gspread_function`
(gspread_utils.py lines 28-52), fuel = `counter_threshold - counter`.
The operation `op` maps a stream position to an outcome and the next stream
position (so that nested runs can consume several positions per invocation).
At fuel 0 the loop has exited: the final-attempt notice is printed and the
operation is invoked once more, unconditionally, its outcome passed through
with no classification.  Inside the loop, a success returns immediately; a
transient failure sleeps 30, logs, and continues with `counter + 1`
(attempt number `counter + 1 = 9 - fuel`); a fatal API error logs the trace
and re-raises; any other exception propagates uncaught. -/
def gspread_function_loop (op : Nat → Outcome α × Nat) : Nat → Nat → RunResult α
  | pos, 0 =>
    match op pos with
    | (Outcome.success v, q) => ⟨Except.ok v, [], [LogEntry.finalNotice], q⟩
    | (Outcome.raise e, q) => ⟨Except.error e, [], [LogEntry.finalNotice], q⟩
  | pos, fuel + 1 =>
    match op pos with
    | (Outcome.success v, q) => ⟨Except.ok v, [], [], q⟩
    | (Outcome.raise e, q) =>
      if isTransient (classify e) then
        let r := gspread_function_loop op q fuel
        ⟨r.result, 30 :: r.sleepLog, retryLog (classify e) (9 - fuel) :: r.log, r.endPos⟩
      else if classify e = Classification.fatal then
        ⟨Except.error e, [], [LogEntry.fatalDetail (tbOf e)], q⟩
      else
        ⟨Except.error e, [], [], q⟩

/-- A plain zero-argument operation consumes one stream position per
invocation. -/
def unitStep (op : Nat → Outcome α) : Nat → Outcome α × Nat :=
  fun p => (op p, p + 1)

/-- `gspread_function(f)` (gspread_utils.py lines 12-52): run the retry loop
with `counter = 0` and `counter_threshold = 9` on a plain operation. -/
def gspread_function (op : Nat → Outcome α) : RunResult α :=
  gspread_function_loop (unitStep op) 0 9

/-- Pass-through of the final unconditional attempt: a success is returned, an
exception propagates as-is. -/
def finalResult : Outcome α → Except Exc α
  | Outcome.success v => Except.ok v
  | Outcome.raise e => Except.error e

/-- An invocation outcome is a raise with a transient classification. -/
def isTransientRaise : Outcome α → Bool
  | Outcome.success _ => false
  | Outcome.raise e => isTransient (classify e)

/-- A finished run seen as the outcome of one invocation of the wrapping
zero-argument operation: a returned value is a success, a propagated
exception is raised into the caller. -/
def outcomeOfResult : Except Exc α → Outcome α
  | Except.ok v => Outcome.success v
  | Except.error e => Outcome.raise e

/-- `GSPREAD.open_workbook` (gspread_utils.py lines 68-70):
`gspread_function(lambda: gc.open(workbook_name))`, one run of the retry
wrapper around the remote open, started at stream position `pos` of the
stream `remote` of outcomes of `gc.open(workbook_name)`. -/
def open_workbook (remote : Nat → Outcome α) (pos : Nat) : RunResult α :=
  gspread_function_loop (unitStep remote) pos 9

/-- The workbook opening performed by `GSPREAD.__init__` (line 66):
`gspread_function(lambda: self.open_workbook(workbook_name))` — a second
run of the retry wrapper whose operation is itself a full `open_workbook`
run; each outer invocation consumes as many stream positions as the inner
run used. -/
def GSPREAD_init_open (remote : Nat → Outcome α) : RunResult α :=
  gspread_function_loop
    (fun p => (outcomeOfResult (open_workbook remote p).result,
               (open_workbook remote p).endPos)) 0 9

/-- The state built by `GSPREAD.__init__` (lines 61-66): the per-instance
client `self.gc = gspread.service_account()` and the opened workbook
`self.sh`. -/
structure GSPREADState (α κ : Type) where
  gc : κ
  sh : RunResult α

/-- `GSPREAD.__init__`: stores the instance-created client; the remote open
itself goes through `gc.open`, the module-level global client, whose
behaviour on the given workbook name is `global_open workbook_name`. -/
def GSPREAD_init (global_open : String → Nat → Outcome α) (instance_client : κ)
    (workbook_name : String) : GSPREADState α κ :=
  ⟨instance_client, GSPREAD_init_open (global_open workbook_name)⟩

/-- The `while n > 0` loop of `GSPREAD._number_to_column` (lines 102-105):
`n, remainder = divmod(n - 1, 26); result = chr(65 + remainder) + result`.
The first argument is fuel bounding the iteration count; since `n` strictly
decreases, fuel equal to the initial `n` always suffices. -/
def numberToColumnLoop : Nat → Nat → String → String
  | _, 0, acc => acc
  | 0, _ + 1, acc => acc
  | f + 1, n + 1, acc =>
    numberToColumnLoop f (n / 26) (String.mk [Char.ofNat (65 + n % 26)] ++ acc)

/-- `GSPREAD._number_to_column` (lines 95-106): Excel-style column letter of a
column index (1 → A, 27 → AA); with `start_at_0` the index is first
incremented. -/
def number_to_column (n : Nat) (start_at_0 : Bool) : String :=
  let m := if start_at_0 then n + 1 else n
  numberToColumnLoop m m ("")

/-- The remote operations that the `GSPREAD` methods pass to
`gspread_function` (plus `dfValuesToList`, see
`replace_worksheet_with_df_calls`). -/
inductive RemoteCall where
  | getWorksheets : RemoteCall
  | getWorksheetById : RemoteCall
  | clearBasicFilter : RemoteCall
  | freeze (rows : Nat) (cols : Option Nat) : RemoteCall
  | dfValuesToList : RemoteCall
  | clearSheet : RemoteCall
  | updateRange (rangeLabel : String) : RemoteCall
  | formatRange (rangeLabel : String) : RemoteCall
  | getAllValues : RemoteCall
  | appendRow : RemoteCall
  | colValues (index : Nat) : RemoteCall
  | batchClear (rangeLabel : String) : RemoteCall
  | deleteRows (startIdx endIdx : Nat) : RemoteCall
deriving DecidableEq

/-- The sequence of operations `GSPREAD.replace_worksheet_with_df`
(lines 109-148) passes to `gspread_function`, in program order, for a
dataframe of `nrows` data rows and `ncols` columns: worksheet resolution by
name (`worksheets`, `get_worksheet_by_id`), `clear_basic_filter`,
`freeze(rows=0, cols=0)`, the dataframe conversion `df.values.tolist()`
(line 124, wrapped in `gspread_function` like the remote calls),
`clear`, `update` on `A1:{col}{rows}`, the conditional `format` on the data
rows, and `freeze(rows=1)`. -/
def replace_worksheet_with_df_calls (nrows ncols : Nat) : List RemoteCall :=
  let colLetter := number_to_column ncols false
  let total := nrows + 1
  [RemoteCall.getWorksheets, RemoteCall.getWorksheetById,
   RemoteCall.clearBasicFilter, RemoteCall.freeze 0 (some 0),
   RemoteCall.dfValuesToList, RemoteCall.clearSheet,
   RemoteCall.updateRange (("A1:") ++ colLetter ++ toString total)] ++
  (if total > 1 then
    [RemoteCall.formatRange (("A2:") ++ colLetter ++ toString total)]
   else []) ++
  [RemoteCall.freeze 1 none]

/-- Python dict keys, in insertion order. -/
def dictKeys (d : List (String × Nat)) : List String :=
  d.map Prod.fst

/-- One Python dict assignment `d[k] = v`: an existing key keeps its position
and gets the new value, a new key is appended. -/
def dictInsert (d : List (String × Nat)) (k : String) (v : Nat) : List (String × Nat) :=
  if k ∈ dictKeys d then d.map (fun p => if p.1 = k then (k, v) else p)
  else d ++ [(k, v)]

/-- A Python dict comprehension over a list of key-value pairs: later pairs
with an equal key overwrite earlier ones. -/
def dictOfPairs (l : List (String × Nat)) : List (String × Nat) :=
  l.foldl (fun d p => dictInsert d p.1 p.2) []

/-- Python dict lookup (keys are unique after `dictOfPairs`, so first match). -/
def dictLookup (d : List (String × Nat)) (k : String) : Option Nat :=
  match d with
  | [] => none
  | p :: t => if p.1 = k then some p.2 else dictLookup t k

/-- `GSPREAD.get_worksheet_dict` (lines 82-87): titles of the workbook's
worksheets mapped to their IDs.  The workbook is modelled by the list `ws`
of `(title, id)` pairs returned by `sh.worksheets()`. -/
def get_worksheet_dict (ws : List (String × Nat)) : List (String × Nat) :=
  dictOfPairs ws

/-- `GSPREAD.get_sheet_by_name` (lines 72-80): lower-case every title, look
the lowered requested name up, raise a `ValueError` listing the (lowered)
valid names when absent, otherwise resolve to the matching worksheet ID. -/
def get_sheet_by_name (ws : List (String × Nat)) (sheet_name : String) :
    Except (List String) Nat :=
  let worksheet_names :=
    dictOfPairs ((get_worksheet_dict ws).map (fun p => (lowerStr p.1, p.2)))
  match dictLookup worksheet_names (lowerStr sheet_name) with
  | none => Except.error (dictKeys worksheet_names)
  | some i => Except.ok i

/-- A sheet reference, as dispatched on by `GSPREAD._sheet_check`: a
`Worksheet` object (modelled by its ID), a string name, an integer ID, or a
value of any other type. -/
inductive SheetRef where
  | byWorksheet (w : Nat) : SheetRef
  | byName (s : String) : SheetRef
  | byId (n : Nat) : SheetRef
  | invalidRef (tag : String) : SheetRef
deriving DecidableEq

/-- The exceptions raised by the sheet-reference normalization path. -/
inductive PyError where
  | valueError (msg : String) : PyError
  | nameNotFound (valid : List String) : PyError
deriving DecidableEq

/-- The message of the `ValueError` raised by `_sheet_check` (line 174). -/
def invalidSheetMsg : String :=
  "Invalid sheet reference. Use name (str), ID (int), or Worksheet object."

/-- `GSPREAD._sheet_check` (lines 164-174) together with the remote
operations the normalization itself issues: a `Worksheet` object passes
through with no remote call; a name goes through `get_sheet_by_name`
(`worksheets`, then `get_worksheet_by_id` when found); an ID goes through
`get_sheet_by_id`; anything else raises `ValueError` with no remote call. -/
def sheet_check (ws : List (String × Nat)) (r : SheetRef) :
    Except PyError Nat × List RemoteCall :=
  match r with
  | SheetRef.byWorksheet w => (Except.ok w, [])
  | SheetRef.byName s =>
    match get_sheet_by_name ws s with
    | Except.ok i => (Except.ok i, [RemoteCall.getWorksheets, RemoteCall.getWorksheetById])
    | Except.error valid =>
      (Except.error (PyError.nameNotFound valid), [RemoteCall.getWorksheets])
  | SheetRef.byId n => (Except.ok n, [RemoteCall.getWorksheetById])
  | SheetRef.invalidRef _ => (Except.error (PyError.valueError invalidSheetMsg), [])

/-- Shape shared by the `GSPREAD` methods that first normalize their sheet
argument: run `_sheet_check`; when it raises, the exception propagates
before any of the method's own remote operations `extra` is constructed. -/
def runAfterCheck (ws : List (String × Nat)) (r : SheetRef)
    (extra : List RemoteCall) : Except PyError Nat × List RemoteCall :=
  match sheet_check ws r with
  | (Except.ok sid, calls) => (Except.ok sid, calls ++ extra)
  | (Except.error e, calls) => (Except.error e, calls)

/-- `GSPREAD.update_rows_by_range` (lines 151-162). -/
def update_rows_by_range (ws : List (String × Nat)) (r : SheetRef)
    (cell_range : String) : Except PyError Nat × List RemoteCall :=
  runAfterCheck ws r [RemoteCall.updateRange cell_range]

/-- `GSPREAD.sheet_to_df` (lines 176-186): the one remote call it wraps. -/
def sheet_to_df (ws : List (String × Nat)) (r : SheetRef) :
    Except PyError Nat × List RemoteCall :=
  runAfterCheck ws r [RemoteCall.getAllValues]

/-- `GSPREAD.append_row_to_sheet` (lines 188-194). -/
def append_row_to_sheet (ws : List (String × Nat)) (r : SheetRef) :
    Except PyError Nat × List RemoteCall :=
  runAfterCheck ws r [RemoteCall.appendRow]

/-- `GSPREAD.get_sheet_url` (lines 196-201): `sheet.url` is a direct
attribute access, no wrapped remote call. -/
def get_sheet_url (ws : List (String × Nat)) (r : SheetRef) :
    Except PyError Nat × List RemoteCall :=
  runAfterCheck ws r []

/-- `GSPREAD.get_column_values` (lines 203-208). -/
def get_column_values (ws : List (String × Nat)) (r : SheetRef) (index : Nat) :
    Except PyError Nat × List RemoteCall :=
  runAfterCheck ws r [RemoteCall.colValues index]

/-- `GSPREAD.batch_clear` (lines 210-215). -/
def batch_clear (ws : List (String × Nat)) (r : SheetRef) (rangeLabel : String) :
    Except PyError Nat × List RemoteCall :=
  runAfterCheck ws r [RemoteCall.batchClear rangeLabel]

/-- `GSPREAD.clear_basic_filter` (lines 217-222). -/
def clear_basic_filter (ws : List (String × Nat)) (r : SheetRef) :
    Except PyError Nat × List RemoteCall :=
  runAfterCheck ws r [RemoteCall.clearBasicFilter]

/-- `GSPREAD.delete_rows` (lines 224-229). -/
def delete_rows (ws : List (String × Nat)) (r : SheetRef)
    (starting_index ending_index : Nat) : Except PyError Nat × List RemoteCall :=
  runAfterCheck ws r [RemoteCall.deleteRows starting_index ending_index]

/-! ## Lemmas about the retry loop -/

/-- One iteration of the loop on a transiently classified failure: sleep 30,
log, continue with the counter incremented. -/
lemma loop_step_transient (op : Nat → Outcome α) (pos fuel : Nat) (e : Exc)
    (hop : op pos = Outcome.raise e) (ht : isTransient (classify e) = true) :
    gspread_function_loop (unitStep op) pos (fuel + 1) =
      ⟨(gspread_function_loop (unitStep op) (pos + 1) fuel).result,
       30 :: (gspread_function_loop (unitStep op) (pos + 1) fuel).sleepLog,
       retryLog (classify e) (9 - fuel) ::
         (gspread_function_loop (unitStep op) (pos + 1) fuel).log,
       (gspread_function_loop (unitStep op) (pos + 1) fuel).endPos⟩ := by
  simp [gspread_function_loop, unitStep, hop, ht]

/-- A run whose every in-loop invocation fails transiently: one sleep per unit
of fuel, then the unconditional final attempt decides the run. -/
lemma loop_all_transient (op : Nat → Outcome α) :
    ∀ (fuel pos : Nat), (∀ k, k < fuel → isTransientRaise (op (pos + k)) = true) →
      (gspread_function_loop (unitStep op) pos fuel).sleepLog = List.replicate fuel 30 ∧
      (gspread_function_loop (unitStep op) pos fuel).endPos = pos + fuel + 1 ∧
      (gspread_function_loop (unitStep op) pos fuel).result = finalResult (op (pos + fuel)) ∧
      LogEntry.finalNotice ∈ (gspread_function_loop (unitStep op) pos fuel).log := by
  intro fuel
  induction fuel with
  | zero =>
    intro pos _
    cases hop : op pos <;>
      simp [gspread_function_loop, unitStep, hop, finalResult]
  | succ f ih =>
    intro pos h
    have h0 := h 0 (Nat.succ_pos f)
    rw [Nat.add_zero] at h0
    cases hop : op pos with
    | success v => rw [hop] at h0; simp [isTransientRaise] at h0
    | raise e =>
      rw [hop] at h0
      have ht : isTransient (classify e) = true := by
        simpa [isTransientRaise] using h0
      have ih2 := ih (pos + 1) (fun k hk => by
        have hkk := h (k + 1) (Nat.succ_lt_succ hk)
        rwa [show pos + (k + 1) = pos + 1 + k by omega] at hkk)
      rw [loop_step_transient op pos f e hop ht]
      refine ⟨?_, ?_, ?_, ?_⟩
      · simp [List.replicate_succ, ih2.1]
      · simp only [ih2.2.1]; omega
      · simp only [ih2.2.2.1]
        rw [show pos + 1 + f = pos + (f + 1) by omega]
      · exact List.mem_cons_of_mem _ ih2.2.2.2

/-- A run whose first `k` invocations fail transiently and whose invocation
`k` (with `k` still inside the loop) succeeds: the value is returned after
exactly `k` sleeps and `k` log lines. -/
lemma loop_runs_then_success (op : Nat → Outcome α) (v : α) :
    ∀ (k fuel pos : Nat), k < fuel →
      (∀ j, j < k → isTransientRaise (op (pos + j)) = true) →
      op (pos + k) = Outcome.success v →
      (gspread_function_loop (unitStep op) pos fuel).result = Except.ok v ∧
      (gspread_function_loop (unitStep op) pos fuel).sleepLog = List.replicate k 30 ∧
      (gspread_function_loop (unitStep op) pos fuel).endPos = pos + k + 1 ∧
      (gspread_function_loop (unitStep op) pos fuel).log.length = k := by
  intro k
  induction k with
  | zero =>
    intro fuel pos hf h hs
    rw [Nat.add_zero] at hs
    match fuel, hf with
    | f + 1, _ =>
      simp [gspread_function_loop, unitStep, hs]
  | succ k ih =>
    intro fuel pos hf h hs
    match fuel, hf with
    | f + 1, hf =>
      have h0 := h 0 (Nat.succ_pos k)
      rw [Nat.add_zero] at h0
      cases hop : op pos with
      | success w => rw [hop] at h0; simp [isTransientRaise] at h0
      | raise e =>
        rw [hop] at h0
        have ht : isTransient (classify e) = true := by
          simpa [isTransientRaise] using h0
        have ih2 := ih f (pos + 1) (Nat.lt_of_succ_lt_succ hf)
          (fun j hj => by
            have hjj := h (j + 1) (Nat.succ_lt_succ hj)
            rwa [show pos + (j + 1) = pos + 1 + j by omega] at hjj)
          (by rwa [show pos + 1 + k = pos + (k + 1) by omega])
        rw [loop_step_transient op pos f e hop ht]
        refine ⟨ih2.1, ?_, ?_, ?_⟩
        · simp [List.replicate_succ, ih2.2.1]
        · simp only [ih2.2.2.1]; omega
        · simp [ih2.2.2.2]

/-- Bound on stream consumption: when each invocation of the operation
advances the stream by at most `k`, a run with the given fuel makes at most
`fuel + 1` invocations and so advances by at most `(fuel + 1) * k`. -/
lemma loop_endPos_le (op : Nat → Outcome α × Nat) (k : Nat)
    (hs : ∀ p, (op p).2 ≤ p + k) :
    ∀ (fuel pos : Nat),
      (gspread_function_loop op pos fuel).endPos ≤ pos + (fuel + 1) * k := by
  intro fuel
  induction fuel with
  | zero =>
    intro pos
    have hq := hs pos
    rcases hop : op pos with ⟨o, q⟩
    rw [hop] at hq
    cases o <;> simp only [gspread_function_loop, hop] <;> simpa using hq
  | succ f ih =>
    intro pos
    have hq := hs pos
    rcases hop : op pos with ⟨o, q⟩
    rw [hop] at hq
    have hk1 : k ≤ (f + 1 + 1) * k := by
      calc k = 1 * k := (Nat.one_mul k).symm
        _ ≤ (f + 1 + 1) * k := Nat.mul_le_mul_right k (by omega)
    cases o with
    | success v =>
      simp only [gspread_function_loop, hop]
      omega
    | raise e =>
      by_cases ht : isTransient (classify e) = true
      · simp only [gspread_function_loop, hop, ht, if_true]
        have h2 := ih q
        have h3 : q + (f + 1) * k ≤ pos + (f + 1 + 1) * k := by
          have : k + (f + 1) * k = (f + 1 + 1) * k := by ring
          omega
        exact le_trans h2 h3
      · simp only [gspread_function_loop, hop, ht, if_false, Bool.false_eq_true]
        split <;> simp only [] <;> omega

/-! ## Claim theorems -/

/-- C1: an operation that fails with a transient classification on all of the
first 9 invocations makes the run perform exactly 9 backoff sleeps of 30
(so `attempt_count` stays at or below the threshold 9 while the loop runs),
then one unconditional final invocation outside the loop — 10 invocations in
total — whose outcome is returned or propagated as-is, after the
final-attempt notice, with no further classification. -/
theorem claim_C1_exhausted_transient (op : Nat → Outcome α)
    (h : ∀ k, k < 9 → isTransientRaise (op k) = true) :
    (gspread_function op).sleepLog = List.replicate 9 30 ∧
    (gspread_function op).endPos = 10 ∧
    (gspread_function op).result = finalResult (op 9) ∧
    LogEntry.finalNotice ∈ (gspread_function op).log := by
  have hall := loop_all_transient op 9 0 (by simpa using h)
  simpa [gspread_function] using hall

/-- Witness for C1: an operation raising a 502 API error on its first nine
invocations and succeeding on the tenth. -/
def opC1 : Nat → Outcome Nat := fun k =>
  if k < 9 then Outcome.raise (Exc.apiError ("502") ("x")) else Outcome.success 42

/-- Witness for C1 at `opC1`. -/
theorem claim_C1_witness :
    (gspread_function opC1).sleepLog = List.replicate 9 30 ∧
    (gspread_function opC1).endPos = 10 ∧
    (gspread_function opC1).result = finalResult (opC1 9) ∧
    LogEntry.finalNotice ∈ (gspread_function opC1).log :=
  claim_C1_exhausted_transient opC1 (by decide)

/-- C2: an API error classified fatal on the first invocation is re-raised at
once — zero sleeps, no counter increment, exactly one invocation — after
printing the stack trace. -/
theorem claim_C2_fatal_first_call (op : Nat → Outcome α) (e : Exc)
    (hop : op 0 = Outcome.raise e) (hc : classify e = Classification.fatal) :
    gspread_function op =
      ⟨Except.error e, [], [LogEntry.fatalDetail (tbOf e)], 1⟩ := by
  rw [gspread_function, show (9 : Nat) = 8 + 1 from rfl]
  simp [gspread_function_loop, unitStep, hop, hc, isTransient]

/-- Witness operation for C2: the spec's "Invalid range" scenario. -/
def opC2 : Nat → Outcome Nat := fun _ =>
  Outcome.raise (Exc.apiError ("Invalid range") ("gspread.exceptions.APIError: Invalid range"))

/-- Witness for C2 at `opC2`. -/
theorem claim_C2_witness :
    gspread_function opC2 =
      ⟨Except.error (Exc.apiError ("Invalid range") ("gspread.exceptions.APIError: Invalid range")),
       [],
       [LogEntry.fatalDetail (tbOf (Exc.apiError ("Invalid range") ("gspread.exceptions.APIError: Invalid range")))],
       1⟩ :=
  claim_C2_fatal_first_call opC2 _ rfl (by decide)

/-- C3: an operation failing transiently on exactly its first `k < 9`
invocations and succeeding on invocation `k` returns the success value with
exactly `k` backoff sleeps and `k` log lines; in particular `k = 0` (an
always-succeeding operation) returns on the first invocation with zero
sleeps and an empty log, reaching no classification. -/
theorem claim_C3_transient_then_success (op : Nat → Outcome α) (k : Nat) (v : α)
    (hk : k < 9) (h : ∀ j, j < k → isTransientRaise (op j) = true)
    (hs : op k = Outcome.success v) :
    (gspread_function op).result = Except.ok v ∧
    (gspread_function op).sleepLog = List.replicate k 30 ∧
    (gspread_function op).endPos = k + 1 ∧
    (gspread_function op).log.length = k := by
  have hrun := loop_runs_then_success op v k 9 0 hk (by simpa using h) (by simpa using hs)
  simpa [gspread_function] using hrun

/-- Witness operation for C3: the spec's scenario — a malformed-response
error twice, then the value 42. -/
def opC3 : Nat → Outcome Nat := fun k =>
  if k < 2 then Outcome.raise Exc.jsonDecodeError else Outcome.success 42

/-- Witness for C3 at `opC3`: 42 is returned after exactly 2 sleeps. -/
theorem claim_C3_witness :
    (gspread_function opC3).result = Except.ok 42 ∧
    (gspread_function opC3).sleepLog = List.replicate 2 30 ∧
    (gspread_function opC3).endPos = 2 + 1 ∧
    (gspread_function opC3).log.length = 2 :=
  claim_C3_transient_then_success opC3 2 42 (by decide) (by decide) rfl

/-- C4: an exception that is neither a JSON decode error nor an API error
propagates uncaught on the first invocation — zero sleeps, zero retries,
nothing logged by this layer, no classification applied. -/
theorem claim_C4_unclassified_error (op : Nat → Outcome α) (s : String)
    (hop : op 0 = Outcome.raise (Exc.other s)) :
    gspread_function op = ⟨Except.error (Exc.other s), [], [], 1⟩ := by
  rw [gspread_function, show (9 : Nat) = 8 + 1 from rfl]
  simp [gspread_function_loop, unitStep, hop, classify, isTransient]

/-- Witness operation for C4: a non-classified exception type. -/
def opC4 : Nat → Outcome Nat := fun _ =>
  Outcome.raise (Exc.other ("TypeError: unsupported operand"))

/-- Witness for C4 at `opC4`. -/
theorem claim_C4_witness :
    gspread_function opC4 =
      ⟨Except.error (Exc.other ("TypeError: unsupported operand")), [], [], 1⟩ :=
  claim_C4_unclassified_error opC4 _ rfl

/-- C5 fails as stated: the code tests `"502" in str(e) or "Server Error" in
tb`, not the claim's symmetric "502 or Server Error in message or trace".
Concretely, an API error whose message is "boom" and whose stack trace
contains "502" only as a line number satisfies the claim's condition yet is
classified fatal: `execute` re-raises it at once with zero sleeps instead of
sleeping and retrying. -/
theorem claim_C5_counterexample :
    strContains ("File a.py, line 502, in f: boom") ("502") = true ∧
    classify (Exc.apiError ("boom") ("File a.py, line 502, in f: boom")) =
      Classification.fatal ∧
    (gspread_function ((fun _ =>
        Outcome.raise (Exc.apiError ("boom") ("File a.py, line 502, in f: boom")))
      : Nat → Outcome Nat)).sleepLog = [] ∧
    (gspread_function ((fun _ =>
        Outcome.raise (Exc.apiError ("boom") ("File a.py, line 502, in f: boom")))
      : Nat → Outcome Nat)).result =
      Except.error (Exc.apiError ("boom") ("File a.py, line 502, in f: boom")) :=
  ⟨by decide, by decide, by decide, rfl⟩

/-- C5 (amended): an API error whose *message* contains "502" or whose
*stack trace* contains "Server Error" is classified TRANSIENT_SERVER_502,
and an in-loop iteration hitting it logs the attempt number, sleeps 30,
increments the counter (fuel decreases) and continues rather than
re-raising. -/
theorem claim_C5_server_502 (op : Nat → Outcome α) (msg tb : String)
    (pos fuel : Nat)
    (hop : op pos = Outcome.raise (Exc.apiError msg tb))
    (hcond : (strContains msg ("502") || strContains tb ("Server Error")) = true) :
    classify (Exc.apiError msg tb) = Classification.transient502 ∧
    gspread_function_loop (unitStep op) pos (fuel + 1) =
      ⟨(gspread_function_loop (unitStep op) (pos + 1) fuel).result,
       30 :: (gspread_function_loop (unitStep op) (pos + 1) fuel).sleepLog,
       LogEntry.retry502 (9 - fuel) ::
         (gspread_function_loop (unitStep op) (pos + 1) fuel).log,
       (gspread_function_loop (unitStep op) (pos + 1) fuel).endPos⟩ := by
  have hcl : classify (Exc.apiError msg tb) = Classification.transient502 := by
    simp [classify, hcond]
  refine ⟨hcl, ?_⟩
  rw [loop_step_transient op pos fuel _ hop (by rw [hcl]; rfl)]
  rw [hcl]
  simp [retryLog]

/-- Witness operation for C5 (amended). -/
def opC5 : Nat → Outcome Nat := fun _ =>
  Outcome.raise (Exc.apiError ("api 502 err") ("tb with Server Error"))

/-- Witness for C5 (amended) at `opC5`, first loop iteration. -/
theorem claim_C5_witness :
    classify (Exc.apiError ("api 502 err") ("tb with Server Error")) =
      Classification.transient502 ∧
    gspread_function_loop (unitStep opC5) 0 (8 + 1) =
      ⟨(gspread_function_loop (unitStep opC5) (0 + 1) 8).result,
       30 :: (gspread_function_loop (unitStep opC5) (0 + 1) 8).sleepLog,
       LogEntry.retry502 (9 - 8) ::
         (gspread_function_loop (unitStep opC5) (0 + 1) 8).log,
       (gspread_function_loop (unitStep opC5) (0 + 1) 8).endPos⟩ :=
  claim_C5_server_502 opC5 ("api 502 err") ("tb with Server Error") 0 8 rfl (by decide)

/-- A remote open that always fails with a transiently classified 502 error. -/
def remote502 : Nat → Outcome Nat := fun _ =>
  Outcome.raise (Exc.apiError ("502") ("502"))

/-- C6 fails as stated: `GSPREAD.__init__` passes `open_workbook` — which
already wraps the remote `gc.open` in `gspread_function` — to
`gspread_function` a second time, so the workbook open issued by `__init__`
goes through two nested retry wrappers, not one.  On a remote open that
always fails transiently, the remote operation is invoked 100 times, not at
most 10. -/
theorem claim_C6_counterexample :
    (GSPREAD_init_open remote502).endPos = 100 ∧
    ¬ (GSPREAD_init_open remote502).endPos ≤ 10 := by
  decide

/-- C6 (amended): `open_workbook` alone passes the remote open through
exactly one retry wrapper, invoking it at most 10 times; but `__init__`
wraps `open_workbook` in `gspread_function` again, so per `__init__`-level
open the remote open is invoked at most 100 (= 10 × 10) times. -/
theorem claim_C6_nested_wrappers {α : Type} :
    (∀ (remote : Nat → Outcome α) (pos : Nat),
      (open_workbook remote pos).endPos ≤ pos + 10) ∧
    (∀ remote : Nat → Outcome α, (GSPREAD_init_open remote).endPos ≤ 100) := by
  have hopen : ∀ (remote : Nat → Outcome α) (pos : Nat),
      (open_workbook remote pos).endPos ≤ pos + 10 := by
    intro remote pos
    have hb := loop_endPos_le (unitStep remote) 1 (fun p => by simp [unitStep]) 9 pos
    simpa [open_workbook] using hb
  refine ⟨hopen, ?_⟩
  intro remote
  have hb := loop_endPos_le
    (fun p => (outcomeOfResult (open_workbook remote p).result,
               (open_workbook remote p).endPos))
    10 (fun p => hopen remote p) 9 0
  simpa [GSPREAD_init_open] using hb

/-- C7 fails as stated: the dataframe-to-rows conversion
`df.values.tolist()` on line 124 of `replace_worksheet_with_df` *is* passed
through `gspread_function` — it appears among the operations the method
hands to the retry wrapper. -/
theorem claim_C7_counterexample :
    RemoteCall.dfValuesToList ∈ replace_worksheet_with_df_calls 3 2 := by
  decide

/-- C7 (amended): the conversion is wrapped in `gspread_function` like the
remote calls, but being a pure step that always succeeds, the wrapped call
returns the rows on the first invocation with zero sleeps, zero retries and
an empty log. -/
theorem claim_C7_conversion_wrapped (nrows ncols : Nat) (v : List (List String)) :
    RemoteCall.dfValuesToList ∈ replace_worksheet_with_df_calls nrows ncols ∧
    gspread_function (fun _ => Outcome.success v) = ⟨Except.ok v, [], [], 1⟩ := by
  constructor
  · simp [replace_worksheet_with_df_calls]
  · rfl

/-- C9: every sheet-taking `GSPREAD` method normalizes its sheet reference
through `_sheet_check` first, so a reference that is not a name, an ID or a
`Worksheet` object raises the `ValueError` with an empty remote-call trace:
no remote operation is constructed, hence no retry or sleep can occur. -/
theorem claim_C9_invalid_ref (ws : List (String × Nat)) (tag : String)
    (cell_range rangeLabel : String) (index starting_index ending_index : Nat) :
    update_rows_by_range ws (SheetRef.invalidRef tag) cell_range =
      (Except.error (PyError.valueError invalidSheetMsg), []) ∧
    sheet_to_df ws (SheetRef.invalidRef tag) =
      (Except.error (PyError.valueError invalidSheetMsg), []) ∧
    append_row_to_sheet ws (SheetRef.invalidRef tag) =
      (Except.error (PyError.valueError invalidSheetMsg), []) ∧
    get_sheet_url ws (SheetRef.invalidRef tag) =
      (Except.error (PyError.valueError invalidSheetMsg), []) ∧
    get_column_values ws (SheetRef.invalidRef tag) index =
      (Except.error (PyError.valueError invalidSheetMsg), []) ∧
    batch_clear ws (SheetRef.invalidRef tag) rangeLabel =
      (Except.error (PyError.valueError invalidSheetMsg), []) ∧
    clear_basic_filter ws (SheetRef.invalidRef tag) =
      (Except.error (PyError.valueError invalidSheetMsg), []) ∧
    delete_rows ws (SheetRef.invalidRef tag) starting_index ending_index =
      (Except.error (PyError.valueError invalidSheetMsg), []) :=
  ⟨rfl, rfl, rfl, rfl, rfl, rfl, rfl, rfl⟩

/-! ## Lemmas about the dict model, for the worksheet-name lookup -/

/-- A successful lookup returns a pair of the dict. -/
lemma dictLookup_mem (k : String) (v : Nat) :
    ∀ d : List (String × Nat), dictLookup d k = some v → (k, v) ∈ d := by
  intro d
  induction d with
  | nil => intro h; simp [dictLookup] at h
  | cons p t ih =>
    intro h
    rw [dictLookup] at h
    split at h
    · rename_i hk
      have hv : p.2 = v := Option.some.inj h
      obtain ⟨a, b⟩ := p
      simp only at hk hv
      subst hk; subst hv
      exact List.mem_cons_self _ _
    · exact List.mem_cons_of_mem _ (ih h)

/-- A lookup succeeds exactly when the key is among the dict's keys. -/
lemma dictLookup_isSome_iff (k : String) :
    ∀ d : List (String × Nat), (dictLookup d k).isSome = true ↔ k ∈ dictKeys d := by
  intro d
  induction d with
  | nil => simp [dictLookup, dictKeys]
  | cons p t ih =>
    rw [dictLookup]
    by_cases hk : p.1 = k
    · simp [dictKeys, hk]
    · rw [if_neg hk, ih]
      simp only [dictKeys, List.map_cons, List.mem_cons]
      constructor
      · exact Or.inr
      · rintro (h | h)
        · exact absurd h.symm hk
        · exact h

/-- Every pair of an updated dict is a pair of the old dict or the new one. -/
lemma mem_dictInsert (q : String × Nat) (d : List (String × Nat)) (k : String) (v : Nat)
    (h : q ∈ dictInsert d k v) : q ∈ d ∨ q = (k, v) := by
  rw [dictInsert] at h
  split at h
  · obtain ⟨p, hp, hq⟩ := List.mem_map.mp h
    by_cases hk : p.1 = k
    · right; rw [← hq]; simp [hk]
    · left; rw [← hq]; simpa [hk] using hp
  · rcases List.mem_append.mp h with h1 | h1
    · exact Or.inl h1
    · right; simpa using h1

/-- Overwriting the value at a key leaves the key list unchanged. -/
lemma dictKeys_overwrite (k : String) (v : Nat) :
    ∀ d : List (String × Nat),
      dictKeys (d.map (fun p => if p.1 = k then (k, v) else p)) = dictKeys d := by
  intro d
  induction d with
  | nil => rfl
  | cons p t ih =>
    simp only [dictKeys, List.map_cons] at ih ⊢
    by_cases hk : p.1 = k
    · rw [if_pos hk]
      simp [hk, ih]
    · rw [if_neg hk]
      simp [ih]

/-- Key membership after one dict assignment. -/
lemma mem_keys_dictInsert (s : String) (d : List (String × Nat)) (k : String) (v : Nat) :
    s ∈ dictKeys (dictInsert d k v) ↔ s ∈ dictKeys d ∨ s = k := by
  rw [dictInsert]
  split
  · rename_i hk
    rw [dictKeys_overwrite]
    constructor
    · exact Or.inl
    · rintro (h | rfl)
      · exact h
      · exact hk
  · simp [dictKeys]

/-- Folding dict assignments only ever adds pairs from the input list. -/
lemma mem_foldl_dictInsert (q : String × Nat) :
    ∀ (l acc : List (String × Nat)),
      q ∈ List.foldl (fun d p => dictInsert d p.1 p.2) acc l → q ∈ acc ∨ q ∈ l := by
  intro l
  induction l with
  | nil =>
    intro acc hq
    exact Or.inl (by simpa using hq)
  | cons p t ih =>
    intro acc hq
    rw [List.foldl_cons] at hq
    rcases ih (dictInsert acc p.1 p.2) hq with h1 | h1
    · rcases mem_dictInsert q acc p.1 p.2 h1 with h2 | h2
      · exact Or.inl h2
      · right; rw [h2]; exact List.mem_cons_self _ _
    · exact Or.inr (List.mem_cons_of_mem _ h1)

/-- Every pair of a dict built from a pair list is one of the input pairs. -/
lemma mem_dictOfPairs (l : List (String × Nat)) (q : String × Nat)
    (h : q ∈ dictOfPairs l) : q ∈ l := by
  rw [dictOfPairs] at h
  rcases mem_foldl_dictInsert q l [] h with h1 | h1
  · simp at h1
  · exact h1

/-- The keys of a dict built from a pair list are exactly the input keys. -/
lemma mem_keys_dictOfPairs (s : String) :
    ∀ l : List (String × Nat),
      s ∈ dictKeys (dictOfPairs l) ↔ s ∈ l.map Prod.fst := by
  have H : ∀ (l : List (String × Nat)) (acc : List (String × Nat)),
      s ∈ dictKeys (List.foldl (fun d p => dictInsert d p.1 p.2) acc l) ↔
        s ∈ dictKeys acc ∨ s ∈ l.map Prod.fst := by
    intro l
    induction l with
    | nil => intro acc; simp
    | cons p t ih =>
      intro acc
      rw [List.foldl_cons, ih (dictInsert acc p.1 p.2), mem_keys_dictInsert]
      simp only [List.map_cons, List.mem_cons]
      tauto
  intro l
  rw [dictOfPairs, H l []]
  simp [dictKeys]

/-- The lowered titles of the deduplicated worksheet dict are, as a set, the
lowered titles of the worksheet list. -/
lemma mem_map_lower_dictOfPairs (ws : List (String × Nat)) (s : String) :
    s ∈ (dictOfPairs ws).map (fun p => lowerStr p.1) ↔
      s ∈ ws.map (fun p => lowerStr p.1) := by
  constructor
  · intro h
    obtain ⟨q, hq, he⟩ := List.mem_map.mp h
    exact List.mem_map.mpr ⟨q, mem_dictOfPairs ws q hq, he⟩
  · intro h
    obtain ⟨p, hp, he⟩ := List.mem_map.mp h
    have hkey : p.1 ∈ dictKeys (dictOfPairs ws) := by
      rw [mem_keys_dictOfPairs]
      exact List.mem_map.mpr ⟨p, hp, rfl⟩
    rw [dictKeys] at hkey
    obtain ⟨q, hq, hfst⟩ := List.mem_map.mp hkey
    refine List.mem_map.mpr ⟨q, hq, ?_⟩
    show lowerStr q.1 = s
    rw [hfst]
    exact he

/-- The keys of the lowered worksheet-name dict built by
`get_sheet_by_name` are exactly the lowered titles of the workbook. -/
lemma keys_lowered_iff (ws : List (String × Nat)) (s : String) :
    s ∈ dictKeys (dictOfPairs ((dictOfPairs ws).map (fun p => (lowerStr p.1, p.2)))) ↔
      ∃ p ∈ ws, lowerStr p.1 = s := by
  rw [mem_keys_dictOfPairs, List.map_map]
  have hc : (Prod.fst ∘ fun p : String × Nat => (lowerStr p.1, p.2)) =
      fun p : String × Nat => lowerStr p.1 := rfl
  rw [hc, mem_map_lower_dictOfPairs]
  simp [List.mem_map]

/-- C8: worksheet lookup by name is case-insensitive — it succeeds exactly
when some worksheet title matches the requested name up to case, a success
resolves to the ID of a case-insensitively matching worksheet, and a failure
raises the error listing exactly the lowercased worksheet titles. -/
theorem claim_C8_case_insensitive_lookup (ws : List (String × Nat)) (name : String) :
    ((∃ i, get_sheet_by_name ws name = Except.ok i) ↔
        ∃ p ∈ ws, lowerStr p.1 = lowerStr name) ∧
    (∀ i, get_sheet_by_name ws name = Except.ok i →
        ∃ t, (t, i) ∈ ws ∧ lowerStr t = lowerStr name) ∧
    (∀ valid, get_sheet_by_name ws name = Except.error valid →
        ((∀ p ∈ ws, lowerStr p.1 ≠ lowerStr name) ∧
         ∀ s, s ∈ valid ↔ ∃ p ∈ ws, lowerStr p.1 = s)) := by
  have hunf : get_sheet_by_name ws name =
      match dictLookup
        (dictOfPairs ((dictOfPairs ws).map (fun p => (lowerStr p.1, p.2))))
        (lowerStr name) with
      | none => Except.error
          (dictKeys (dictOfPairs ((dictOfPairs ws).map (fun p => (lowerStr p.1, p.2)))))
      | some i => Except.ok i := rfl
  cases h : dictLookup
      (dictOfPairs ((dictOfPairs ws).map (fun p => (lowerStr p.1, p.2))))
      (lowerStr name) with
  | none =>
    rw [h] at hunf
    have hnomatch : ¬ ∃ p ∈ ws, lowerStr p.1 = lowerStr name := by
      rintro ⟨p, hp, he⟩
      have hk : lowerStr name ∈
          dictKeys (dictOfPairs ((dictOfPairs ws).map (fun p => (lowerStr p.1, p.2)))) :=
        (keys_lowered_iff ws _).mpr ⟨p, hp, he⟩
      have hsome := (dictLookup_isSome_iff _ _).mpr hk
      rw [h] at hsome
      simp at hsome
    refine ⟨?_, ?_, ?_⟩
    · constructor
      · rintro ⟨i, hi⟩
        rw [hunf] at hi
        simp at hi
      · intro hm; exact absurd hm hnomatch
    · intro i hi
      rw [hunf] at hi
      simp at hi
    · intro valid hv
      rw [hunf] at hv
      have hvk := Except.error.inj hv
      constructor
      · intro p hp he; exact hnomatch ⟨p, hp, he⟩
      · intro s
        rw [← hvk, keys_lowered_iff]
  | some i =>
    rw [h] at hunf
    have hok : ∃ t, (t, i) ∈ ws ∧ lowerStr t = lowerStr name := by
      have hmem := dictLookup_mem _ _ _ h
      have hmem2 := mem_dictOfPairs _ _ hmem
      obtain ⟨q, hq, hfq⟩ := List.mem_map.mp hmem2
      have hq2 := mem_dictOfPairs ws q hq
      have h1 : lowerStr q.1 = lowerStr name := congrArg Prod.fst hfq
      have h2 : q.2 = i := congrArg Prod.snd hfq
      refine ⟨q.1, ?_, h1⟩
      rw [← h2]
      exact hq2
    refine ⟨?_, ?_, ?_⟩
    · constructor
      · intro _
        obtain ⟨t, ht, he⟩ := hok
        exact ⟨(t, i), ht, he⟩
      · intro _; exact ⟨i, hunf⟩
    · intro j hj
      rw [hunf] at hj
      have := Except.ok.inj hj
      rw [← this]
      exact hok
    · intro valid hv
      rw [hunf] at hv
      simp at hv

/-- Workbook fixture for the C8 witness: the spec's scenario with worksheet
titles sheet1 and Sheet2. -/
def wsFixture : List (String × Nat) := [(("sheet1"), 1), (("Sheet2"), 2)]

/-- Witness for C8 at the fixture: the request Sheet1 resolves
case-insensitively to sheet1's ID. -/
theorem claim_C8_witness :
    ∃ t, (t, 1) ∈ wsFixture ∧ lowerStr t = lowerStr ("Sheet1") :=
  (claim_C8_case_insensitive_lookup wsFixture ("Sheet1")).2.1 1 rfl

/-- C10: the opened workbook produced by `GSPREAD.__init__` depends only on
the module-level global client's open behaviour, never on the
instance-created client stored in `self.gc`: two `__init__` runs differing
only in the instance client open the same workbook. -/
theorem claim_C10_global_client {α κ : Type}
    (global_open : String → Nat → Outcome α) (c₁ c₂ : κ) (workbook_name : String) :
    (GSPREAD_init global_open c₁ workbook_name).sh =
      (GSPREAD_init global_open c₂ workbook_name).sh :=
  rfl

end GspreadWrapper
